import Mathlib

/-!
Shallow embedding of the antisniper async API wrapper
(src/antisniper/api.py and src/antisniper/exceptions.py).

The wrapper is a thin client over an async HTTP transport (aiohttp).  We
model a call as a pure function of the client state and of the outcome the
transport would deliver for the single request the call issues.  Each call
returns the list of requests actually handed to the transport (empty when
the call fails before reaching the network) together with either the parsed
JSON result or the raised exception.

The transport itself (aiohttp's `ClientSession`) is modelled from its
documented behaviour: a closed session raises `RuntimeError` when used;
connector errors, DNS failures, client timeouts (`ServerTimeoutError`) and
`ContentTypeError` are subclasses of `aiohttp.ClientError`, while
`json.JSONDecodeError` and `RuntimeError` are not.
-/

/-- An opaque parsed JSON value; the wrapper passes payloads through
unchanged, so no structure is needed. -/
structure Json where
  raw : String
deriving DecidableEq, Repr

/-- Values appearing in the Python dicts the wrapper builds for query
parameters and JSON bodies. -/
inductive PyValue where
  | none
  | str (s : String)
  | int (n : Int)
  | bool (b : Bool)
  | strList (l : List String)
deriving DecidableEq, Repr

/-- Exceptions of the transport layer and the standard library, as the
wrapper can observe them.  `isClientError` records which of them are
instances of `aiohttp.ClientError`, the only class the wrapper catches. -/
inductive TransportExc where
  | connectionRefused
  | dnsFailure
  | serverTimeout
  | contentTypeError
  | jsonDecodeError
  | sessionClosed
deriving DecidableEq, Repr

/-- Membership in the `aiohttp.ClientError` hierarchy: connector errors,
DNS failures, client timeouts and `ContentTypeError` are `ClientError`
subclasses; `json.JSONDecodeError` (a `ValueError`) and the
`RuntimeError` raised on a closed session are not. -/
def TransportExc.isClientError : TransportExc → Bool
  | .connectionRefused => true
  | .dnsFailure => true
  | .serverTimeout => true
  | .contentTypeError => true
  | .jsonDecodeError => false
  | .sessionClosed => false

/-- Exceptions a wrapper call can raise: the five typed conditions of
src/antisniper/exceptions.py, the `ValueError` of the bulk-size check, and
foreign exceptions propagating unwrapped (`transport`). -/
inductive PyExc where
  | transport (e : TransportExc)
  | forbidden
  | unprocessable
  | rateLimited
  | unknown
  | connectionFailure (cause : TransportExc)
  | valueError (msg : String)
deriving DecidableEq, Repr

/-- Which raised exceptions are `aiohttp.ClientError` instances: only the
foreign transport exceptions can be; the library's own exception classes
subclass plain `Exception`. -/
def PyExc.isClientError : PyExc → Bool
  | .transport e => e.isClientError
  | _ => false

/-- An HTTP response as the wrapper observes it: its status, whether its
content type is JSON, and its body parsed as JSON when parseable. -/
structure HttpResponse where
  status : Nat
  contentTypeJson : Bool
  parsed : Option Json
deriving DecidableEq, Repr

/-- `aiohttp.ClientResponse.json()` with the default content-type check:
a non-JSON content type raises `ContentTypeError`; an unparseable body
with JSON content type raises `json.JSONDecodeError`. -/
def responseJson (r : HttpResponse) : Except TransportExc Json :=
  if r.contentTypeJson then
    match r.parsed with
    | some v => .ok v
    | Option.none => .error .jsonDecodeError
  else .error .contentTypeError

/-- What the transport delivers for a dispatched request: a response, or a
transport-level exception. -/
inductive TransportOutcome where
  | response (r : HttpResponse)
  | exc (e : TransportExc)
deriving DecidableEq, Repr

/-- An HTTP request as handed to the transport. -/
inductive Verb where
  | get
  | post
deriving DecidableEq, Repr

structure Request where
  verb : Verb
  path : String
  params : List (String × PyValue)
  body : List (String × PyValue)
  headers : List (String × String)
deriving DecidableEq, Repr

/-- Lookup in a header mapping (first occurrence, as in a Python dict with
distinct keys). -/
def headerLookup (hs : List (String × String)) (k : String) : Option String :=
  (hs.find? (fun p => p.1 = k)).map (fun p => p.2)

/-- Python dict merge `\x7b**a, **b\x7d`: keys of `a` in order, with `b`'s value
where a key collides (rightmost wins), then the keys of `b` not in `a`. -/
def dictMerge (a b : List (String × String)) : List (String × String) :=
  a.map (fun p => (p.1, ((b.find? (fun q => q.1 = p.1)).map (fun q => q.2)).getD p.2))
    ++ b.filter (fun q => ¬ a.any (fun p => p.1 = q.1))

/-- The client state (`AntisniperAPI.__init__`, src/antisniper/api.py
lines 4-11): key, base url, the session's default headers (holding the
`Apikey` header), and whether the session has been closed. -/
structure AntisniperAPI where
  key : String
  url : String
  headers : List (String × String)
  closed : Bool
deriving DecidableEq, Repr

def defaultBaseUrl : String := "https://api.antisniper.net/v2"

/-- `AntisniperAPI.__init__`: stores the key and base url, opens a session
and attaches the `Apikey` header to it. -/
def AntisniperAPI.initApi (key baseUrl : String) : AntisniperAPI :=
  { key := key, url := baseUrl, headers := [("Apikey", key)], closed := false }

/-- `AntisniperAPI.close`: closes the underlying session. -/
def AntisniperAPI.close (self : AntisniperAPI) : AntisniperAPI :=
  { self with closed := true }

/-- `AntisniperAPI.__aexit__` delegates to `close`. -/
def AntisniperAPI.aexit (self : AntisniperAPI) : AntisniperAPI :=
  self.close

/-- `ClientSession.get`/`ClientSession.post`: a closed session raises
`RuntimeError` without issuing a request; an open session issues the
request and the network decides the outcome. -/
def sessionRequest (self : AntisniperAPI) (req : Request) (net : TransportOutcome) :
    List Request × TransportOutcome :=
  if self.closed then ([], .exc .sessionClosed) else ([req], net)

/-- `AntisniperAPI._handle_response` (lines 133-144): 200 parses the body
as JSON and returns it, 403/422/429 raise the three typed conditions, any
other status raises the unknown-failure condition.  An exception from
`r.json()` propagates as the foreign exception it is. -/
def handle_response (r : HttpResponse) : Except PyExc Json :=
  if r.status = 200 then
    match responseJson r with
    | .ok v => .ok v
    | .error e => .error (.transport e)
  else if r.status = 403 then .error .forbidden
  else if r.status = 422 then .error .unprocessable
  else if r.status = 429 then .error .rateLimited
  else .error .unknown

/-- The `except aiohttp.ClientError as e: raise AntisniperConnectionException
from e` clause wrapping both verbs: a `ClientError` is re-raised as the
connection-failure condition with the original exception as cause; every
other outcome passes through. -/
def catchClientError (x : Except PyExc Json) : Except PyExc Json :=
  match x with
  | .error (.transport e) =>
      if e.isClientError then .error (.connectionFailure e) else .error (.transport e)
  | other => other

/-- Body of the `try` block of both verbs followed by the `except` clause:
dispatch through the session, interpret the outcome, catch `ClientError`. -/
def tryHandle (self : AntisniperAPI) (req : Request) (net : TransportOutcome) :
    List Request × Except PyExc Json :=
  let s := sessionRequest self req net
  (s.1,
    catchClientError
      (match s.2 with
       | .exc e => .error (.transport e)
       | .response r => handle_response r))

/-- `AntisniperAPI.get` (lines 22-27): issues a GET with the given query
parameters (`params or \x7b\x7d`) under the session's default headers. -/
def AntisniperAPI.get (self : AntisniperAPI) (endpoint : String)
    (params : Option (List (String × PyValue))) (net : TransportOutcome) :
    List Request × Except PyExc Json :=
  tryHandle self
    { verb := .get, path := self.url ++ endpoint, params := params.getD [],
      body := [], headers := self.headers } net

/-- Line 31 of `AntisniperAPI.post`:
`headers = \x7b**self.session.headers, **(headers or \x7b\x7d)\x7d`. -/
def mergedPostHeaders (self : AntisniperAPI) (headers : Option (List (String × String))) :
    List (String × String) :=
  dictMerge self.headers (headers.getD [])

/-- `AntisniperAPI.post` (lines 29-35): issues a POST with the given JSON
body (`body or \x7b\x7d`) under the merged headers. -/
def AntisniperAPI.post (self : AntisniperAPI) (endpoint : String)
    (body : Option (List (String × PyValue)))
    (headers : Option (List (String × String))) (net : TransportOutcome) :
    List Request × Except PyExc Json :=
  tryHandle self
    { verb := .post, path := self.url ++ endpoint, params := [],
      body := body.getD [], headers := mergedPostHeaders self headers } net

/-- `AntisniperAPI.convert` (lines 37-49). -/
def AntisniperAPI.convert (self : AntisniperAPI) (player collection : String)
    (net : TransportOutcome) : List Request × Except PyExc Json :=
  self.get ("/convert/" ++ collection) (some [("player", .str player)]) net

/-- The message of the `ValueError` raised by the two bulk-size checks. -/
def capMsg : String := "You can only check up to 100 players at a time."

/-- `AntisniperAPI.bulk_convert` (lines 51-66): raises `ValueError` when
more than 100 players are supplied, before any request is built. -/
def AntisniperAPI.bulk_convert (self : AntisniperAPI) (players : List String)
    (collection : String) (net : TransportOutcome) : List Request × Except PyExc Json :=
  if players.length > 100 then ([], .error (.valueError capMsg))
  else self.post ("/convert/" ++ collection) (some [("players", .strList players)]) none net

/-- `AntisniperAPI.mojang_data` (lines 68-79). -/
def AntisniperAPI.mojang_data (self : AntisniperAPI) (uuid : String)
    (net : TransportOutcome) : List Request × Except PyExc Json :=
  self.get "/mojang" (some [("uuid", .str uuid)]) net

/-- `AntisniperAPI.name_owners` (lines 81-92). -/
def AntisniperAPI.name_owners (self : AntisniperAPI) (name : String)
    (net : TransportOutcome) : List Request × Except PyExc Json :=
  self.get "/mojang/name" (some [("name", .str name)]) net

/-- `AntisniperAPI.online_check` (lines 94-109): bulk-size check, then a
POST with a `reason` header. -/
def AntisniperAPI.online_check (self : AntisniperAPI) (players : List String)
    (reason : String) (net : TransportOutcome) : List Request × Except PyExc Json :=
  if players.length > 100 then ([], .error (.valueError capMsg))
  else self.post "/other/online" (some [("players", .strList players)])
    (some [("reason", reason)]) net

/-- `AntisniperAPI.get_capes` (lines 111-118): a GET with no params. -/
def AntisniperAPI.get_capes (self : AntisniperAPI) (net : TransportOutcome) :
    List Request × Except PyExc Json :=
  self.get "/capes" none net

/-- `AntisniperAPI.get_blacklist` (lines 120-131): the `token` key is added
only when `token` is truthy (`if token:`), i.e. neither `None` nor the
empty string. -/
def AntisniperAPI.get_blacklist (self : AntisniperAPI) (player : String)
    (token : Option String) (net : TransportOutcome) : List Request × Except PyExc Json :=
  let base := [("player", PyValue.str player)]
  let params := match token with
    | some t => if t.isEmpty then base else base ++ [("token", PyValue.str t)]
    | none => base
  self.get "/blacklist" (some params) net

/-- The fixed `/player` prefix of the `Player` grouping (line 148). -/
def Player.endpointPrefix : String := "/player"

/-- `Player.get_ping` (lines 152-168): the params dict always contains the
`player`, `legacy` and `lookback` keys; an unset `lookback` is included
with value `None`. -/
def Player.get_ping (self : AntisniperAPI) (player : String) (legacy : Bool)
    (lookback : Option Int) (net : TransportOutcome) : List Request × Except PyExc Json :=
  let params := [("player", PyValue.str player), ("legacy", PyValue.bool legacy),
    ("lookback", match lookback with | some n => PyValue.int n | none => PyValue.none)]
  self.get (Player.endpointPrefix ++ "/ping") (some params) net

/-- `Player.quickshop` (lines 170-181). -/
def Player.quickshop (self : AntisniperAPI) (player : String)
    (net : TransportOutcome) : List Request × Except PyExc Json :=
  self.get (Player.endpointPrefix ++ "/quickshop") (some [("player", .str player)]) net

/-- `Player.chat_history` (lines 183-195): the `limit` key is added only
when `limit` is truthy (`if limit:`), i.e. neither `None` nor zero. -/
def Player.chat_history (self : AntisniperAPI) (player : String)
    (limit : Option Int) (net : TransportOutcome) : List Request × Except PyExc Json :=
  let base := [("player", PyValue.str player)]
  let params := match limit with
    | some n => if n = 0 then base else base ++ [("limit", PyValue.int n)]
    | none => base
  self.get (Player.endpointPrefix ++ "/chat") (some params) net

/-- The fixed `/user` prefix of the `User` grouping (line 199). -/
def User.endpointPrefix : String := "/user"

/-- `User.get` (lines 203-210). -/
def User.get (self : AntisniperAPI) (net : TransportOutcome) :
    List Request × Except PyExc Json :=
  self.get User.endpointPrefix none net

/-- `User.get_requests` (lines 212-219). -/
def User.get_requests (self : AntisniperAPI) (net : TransportOutcome) :
    List Request × Except PyExc Json :=
  self.get (User.endpointPrefix ++ "/requests") none net

/-- `User.get_old_requests` (lines 221-228). -/
def User.get_old_requests (self : AntisniperAPI) (net : TransportOutcome) :
    List Request × Except PyExc Json :=
  self.get (User.endpointPrefix ++ "/requests/old") none net

/-- `User.get_products` (lines 230-237). -/
def User.get_products (self : AntisniperAPI) (net : TransportOutcome) :
    List Request × Except PyExc Json :=
  self.get (User.endpointPrefix ++ "/products") none net

/-- `User.get_usage` (lines 239-246). -/
def User.get_usage (self : AntisniperAPI) (net : TransportOutcome) :
    List Request × Except PyExc Json :=
  self.get (User.endpointPrefix ++ "/usage") none net

/-- `User.get_endpoint_usage` (lines 248-255). -/
def User.get_endpoint_usage (self : AntisniperAPI) (net : TransportOutcome) :
    List Request × Except PyExc Json :=
  self.get (User.endpointPrefix ++ "/usage/paths") none net

/-- Enumeration of every endpoint method of the wrapper together with its
arguments, used to quantify over "every endpoint method call". -/
inductive ApiCall where
  | convert (player collection : String)
  | bulk_convert (players : List String) (collection : String)
  | mojang_data (uuid : String)
  | name_owners (name : String)
  | online_check (players : List String) (reason : String)
  | get_capes
  | get_blacklist (player : String) (token : Option String)
  | player_get_ping (player : String) (legacy : Bool) (lookback : Option Int)
  | player_quickshop (player : String)
  | player_chat_history (player : String) (limit : Option Int)
  | user_get
  | user_get_requests
  | user_get_old_requests
  | user_get_products
  | user_get_usage
  | user_get_endpoint_usage
deriving DecidableEq, Repr

/-- Run one endpoint method call on the client. -/
def runCall (self : AntisniperAPI) (c : ApiCall) (net : TransportOutcome) :
    List Request × Except PyExc Json :=
  match c with
  | .convert p col => self.convert p col net
  | .bulk_convert ps col => self.bulk_convert ps col net
  | .mojang_data u => self.mojang_data u net
  | .name_owners n => self.name_owners n net
  | .online_check ps reason => self.online_check ps reason net
  | .get_capes => self.get_capes net
  | .get_blacklist p t => self.get_blacklist p t net
  | .player_get_ping p l lb => Player.get_ping self p l lb net
  | .player_quickshop p => Player.quickshop self p net
  | .player_chat_history p lim => Player.chat_history self p lim net
  | .user_get => User.get self net
  | .user_get_requests => User.get_requests self net
  | .user_get_old_requests => User.get_old_requests self net
  | .user_get_products => User.get_products self net
  | .user_get_usage => User.get_usage self net
  | .user_get_endpoint_usage => User.get_endpoint_usage self net

/-- Whether a call violates the 100-player cap of the two bulk methods. -/
def overCap : ApiCall → Bool
  | .bulk_convert ps _ => 100 < ps.length
  | .online_check ps _ => 100 < ps.length
  | _ => false

/-- Whether a call result is a success. -/
def isOkResult : Except PyExc Json → Bool
  | .ok _ => true
  | .error _ => false

/-- Whether a call result is the connection-failure condition. -/
def isConnectionFailureResult : Except PyExc Json → Bool
  | .error (.connectionFailure _) => true
  | _ => false

/-- Interpretation of a transport outcome by the try/except body shared by
both verbs, once a request has actually been dispatched. -/
def processOutcome (net : TransportOutcome) : Except PyExc Json :=
  catchClientError
    (match net with
     | .exc e => .error (.transport e)
     | .response r => handle_response r)

lemma tryHandle_open (self : AntisniperAPI) (req : Request) (net : TransportOutcome)
    (h : self.closed = false) :
    tryHandle self req net = ([req], processOutcome net) := by
  simp [tryHandle, sessionRequest, h, processOutcome]

lemma tryHandle_closed (self : AntisniperAPI) (req : Request) (net : TransportOutcome)
    (h : self.closed = true) :
    tryHandle self req net = ([], .error (.transport .sessionClosed)) := by
  simp [tryHandle, sessionRequest, h, catchClientError, TransportExc.isClientError]

/-- Every endpoint method either fails the bulk-size check (and then
returns the `ValueError` with an empty trace) or reduces to a single
dispatched request. -/
lemma runCall_shape (self : AntisniperAPI) (c : ApiCall) (net : TransportOutcome) :
    (overCap c = true ∧ runCall self c net = ([], .error (.valueError capMsg)))
    ∨ ∃ req, runCall self c net = tryHandle self req net := by
  cases c <;>
    first
      | exact Or.inr ⟨_, rfl⟩
      | (dsimp only [runCall, AntisniperAPI.bulk_convert, AntisniperAPI.online_check]
         split
         · rename_i hl
           exact Or.inl ⟨by simp [overCap, hl], rfl⟩
         · exact Or.inr ⟨_, rfl⟩)

/-- Once a call has dispatched a request, its result is the interpretation
of the transport outcome. -/
lemma runCall_snd_of_trace (self : AntisniperAPI) (c : ApiCall) (net : TransportOutcome)
    (h : (runCall self c net).1 ≠ []) :
    (runCall self c net).2 = processOutcome net := by
  rcases runCall_shape self c net with ⟨_, hs⟩ | ⟨req, hs⟩
  · rw [hs] at h
    exact absurd rfl h
  · cases hc : self.closed
    · rw [hs, tryHandle_open _ _ _ hc]
    · rw [hs, tryHandle_closed _ _ _ hc] at h
      exact absurd rfl h

/-- A call on a closed client that passes the bulk-size check surfaces the
session-closed runtime error. -/
lemma runCall_closed_snd (self : AntisniperAPI) (c : ApiCall) (net : TransportOutcome)
    (hc : self.closed = true) (ho : overCap c = false) :
    (runCall self c net).2 = .error (.transport .sessionClosed) := by
  rcases runCall_shape self c net with ⟨hcap, _⟩ | ⟨req, hs⟩
  · rw [ho] at hcap
    exact Bool.noConfusion hcap
  · rw [hs, tryHandle_closed _ _ _ hc]

/-- A concrete client, payload and successful response used by the
witnesses below. -/
def exApi : AntisniperAPI := AntisniperAPI.initApi "client-key" defaultBaseUrl

def jsonPayload : Json := { raw := "uuid-069a79f4" }

def okResp : HttpResponse :=
  { status := 200, contentTypeJson := true, parsed := some jsonPayload }

def badJsonResp : HttpResponse :=
  { status := 200, contentTypeJson := true, parsed := Option.none }

/-- Claim C1: for every HTTP response received by any endpoint method,
`_handle_response` maps the status exhaustively — 200 returns the parsed
JSON body, 403 raises Forbidden, 422 raises UnprocessableEntity, 429
raises RateLimited, and every other status raises UnknownFailure; each
call either fully succeeds with the parsed JSON or raises exactly one
typed condition. -/
theorem status_mapping_exhaustive (self : AntisniperAPI) (c : ApiCall) (r : HttpResponse)
    (h : (runCall self c (.response r)).1 ≠ []) :
    (∀ v : Json, r.status = 200 → responseJson r = .ok v →
        (runCall self c (.response r)).2 = .ok v)
    ∧ (r.status = 403 → (runCall self c (.response r)).2 = .error .forbidden)
    ∧ (r.status = 422 → (runCall self c (.response r)).2 = .error .unprocessable)
    ∧ (r.status = 429 → (runCall self c (.response r)).2 = .error .rateLimited)
    ∧ (r.status ≠ 200 → r.status ≠ 403 → r.status ≠ 422 → r.status ≠ 429 →
        (runCall self c (.response r)).2 = .error .unknown) := by
  have hd := runCall_snd_of_trace self c (.response r) h
  rw [hd]
  refine ⟨?_, ?_, ?_, ?_, ?_⟩
  · intro v h200 hjson
    simp [processOutcome, handle_response, h200, hjson, catchClientError]
  · intro h403
    simp [processOutcome, handle_response, h403, catchClientError]
  · intro h422
    simp [processOutcome, handle_response, h422, catchClientError]
  · intro h429
    simp [processOutcome, handle_response, h429, catchClientError]
  · intro h200 h403 h422 h429
    simp [processOutcome, handle_response, h200, h403, h422, h429, catchClientError]

/-- Witness for C1: a concrete 200 response on `convert` returns the
parsed payload. -/
theorem status_mapping_exhaustive_witness :
    (runCall exApi (.convert "Notch" "mojang") (.response okResp)).2 = .ok jsonPayload :=
  (status_mapping_exhaustive exApi (.convert "Notch" "mojang") okResp
    (by decide)).1 jsonPayload rfl rfl

/-- Claim C2: with more than 100 players both `bulk_convert` and
`online_check` raise `ValueError` immediately with no request issued
(result independent of the network outcome, trace empty); with at most
100 players the check passes and a request is dispatched. -/
theorem bulk_cap_check (self : AntisniperAPI) (players : List String)
    (collection reason : String) (net : TransportOutcome) :
    (100 < players.length →
       runCall self (.bulk_convert players collection) net
           = ([], .error (.valueError capMsg))
       ∧ runCall self (.online_check players reason) net
           = ([], .error (.valueError capMsg)))
    ∧ (players.length ≤ 100 → self.closed = false →
       (runCall self (.bulk_convert players collection) net).1 ≠ []
       ∧ (runCall self (.online_check players reason) net).1 ≠ []) := by
  constructor
  · intro hgt
    constructor <;>
      simp [runCall, AntisniperAPI.bulk_convert, AntisniperAPI.online_check, hgt]
  · intro hle hopen
    have hnl : ¬ (100 < players.length) := Nat.not_lt.mpr hle
    constructor <;>
      simp [runCall, AntisniperAPI.bulk_convert, AntisniperAPI.online_check, hnl,
        AntisniperAPI.post, tryHandle_open _ _ _ hopen]

/-- Witness for C2: a 101-player list fails immediately with the
`ValueError` and an empty trace; a 2-player list dispatches a request. -/
theorem bulk_cap_check_witness :
    runCall exApi (.bulk_convert (List.replicate 101 "p") "mojang") (.exc .dnsFailure)
        = ([], .error (.valueError capMsg))
    ∧ (runCall exApi (.bulk_convert ["a", "b"] "mojang") (.exc .dnsFailure)).1 ≠ [] :=
  ⟨((bulk_cap_check exApi (List.replicate 101 "p") "mojang" "r" (.exc .dnsFailure)).1
      (by decide)).1,
   ((bulk_cap_check exApi ["a", "b"] "mojang" "r" (.exc .dnsFailure)).2
      (by decide) rfl).1⟩

/-- Claim C4: a transport failure of `aiohttp.ClientError` type (connection
refused, DNS failure, client timeout) raised during any endpoint method's
request is re-raised as the ConnectionFailure condition carrying the
original exception as its cause. -/
theorem transport_failure_wrapped (self : AntisniperAPI) (c : ApiCall) (e : TransportExc)
    (h : (runCall self c (.exc e)).1 ≠ []) (hce : e.isClientError = true) :
    (runCall self c (.exc e)).2 = .error (.connectionFailure e) := by
  rw [runCall_snd_of_trace self c (.exc e) h]
  simp [processOutcome, catchClientError, hce]

/-- Witness for C4: connection refused, DNS failure and client timeout on
three different endpoint methods each surface as ConnectionFailure with
the original exception as cause. -/
theorem transport_failure_wrapped_witness :
    (runCall exApi (.convert "Notch" "mojang") (.exc .connectionRefused)).2
        = .error (.connectionFailure .connectionRefused)
    ∧ (runCall exApi (.mojang_data "069a79f4") (.exc .dnsFailure)).2
        = .error (.connectionFailure .dnsFailure)
    ∧ (runCall exApi (.bulk_convert ["a", "b"] "mojang") (.exc .serverTimeout)).2
        = .error (.connectionFailure .serverTimeout) :=
  ⟨transport_failure_wrapped exApi (.convert "Notch" "mojang") .connectionRefused
      (by decide) rfl,
   transport_failure_wrapped exApi (.mojang_data "069a79f4") .dnsFailure
      (by decide) rfl,
   transport_failure_wrapped exApi (.bulk_convert ["a", "b"] "mojang") .serverTimeout
      (by decide) rfl⟩

/-- Claim C6: after the client is closed (explicitly or through scoped
exit), no endpoint method call ever succeeds. -/
theorem no_success_after_close (self : AntisniperAPI) (c : ApiCall)
    (net : TransportOutcome) :
    isOkResult ((runCall (AntisniperAPI.close self) c net).2) = false := by
  rcases runCall_shape (AntisniperAPI.close self) c net with ⟨_, hs⟩ | ⟨req, hs⟩
  · rw [hs]
    rfl
  · rw [hs, tryHandle_closed _ _ _ rfl]
    rfl

/-- Counterexample for C3: a caller-supplied headers mapping containing an
`Apikey` key overrides the client's key in the merged header set the POST
actually sends — the sent `Apikey` value is the caller's, not the
client's. -/
theorem apikey_override_cex :
    (AntisniperAPI.post (AntisniperAPI.initApi "client-key" defaultBaseUrl) "/other/online"
        Option.none (some [("Apikey", "caller-key")]) (.exc .dnsFailure)).1.map
        (fun req => headerLookup req.headers "Apikey")
      = [some "caller-key"]
    ∧ headerLookup
        (mergedPostHeaders (AntisniperAPI.initApi "client-key" defaultBaseUrl)
          (some [("Apikey", "caller-key")])) "Apikey"
      ≠ some "client-key" := by
  constructor
  · rfl
  · decide

/-- Claim C3 amended: whenever the caller-supplied headers mapping contains
no `Apikey` key, the merged header set sent by `post` carries the client's
`Apikey` header with the client's key; a caller-supplied `Apikey` entry,
however, wins the merge (rightmost wins). -/
theorem apikey_preserved_without_collision (key baseUrl : String)
    (hs : List (String × String)) (h : ∀ p ∈ hs, p.1 ≠ "Apikey") :
    headerLookup (mergedPostHeaders (AntisniperAPI.initApi key baseUrl) (some hs)) "Apikey"
      = some key := by
  have hf : hs.find? (fun q => q.1 = "Apikey") = none := by
    rw [List.find?_eq_none]
    intro x hx
    simpa using h x hx
  simp [mergedPostHeaders, AntisniperAPI.initApi, dictMerge, hf, headerLookup, List.find?]

/-- Witness for C3 amended: a caller header mapping without an `Apikey`
key leaves the client's key in place. -/
theorem apikey_preserved_without_collision_witness :
    headerLookup
      (mergedPostHeaders (AntisniperAPI.initApi "client-key" defaultBaseUrl)
        (some [("reason", "checking friends")])) "Apikey"
      = some "client-key" :=
  apikey_preserved_without_collision "client-key" defaultBaseUrl
    [("reason", "checking friends")] (by decide)

/-- Claim C5 (code bug): `get_ping` with `lookback` unset nevertheless
sends a query mapping that contains the `lookback` key with value `None`
(and the `legacy` key as a boolean) — the `None`-valued optional is not
omitted, contradicting the omission rule the spec states. -/
theorem get_ping_sends_none_lookback :
    (Player.get_ping exApi "Notch" false Option.none (.response okResp)).1.map Request.params
      = [[("player", PyValue.str "Notch"), ("legacy", PyValue.bool false),
          ("lookback", PyValue.none)]] := by
  rfl

/-- Claim C7: `get_blacklist(player)` sends only the `player` query
parameter, and `get_blacklist(player, "abc")` sends both `player` and
`token` = "abc". -/
theorem get_blacklist_token_params (self : AntisniperAPI) (player : String)
    (net : TransportOutcome) (h : self.closed = false) :
    (runCall self (.get_blacklist player Option.none) net).1.map Request.params
        = [[("player", PyValue.str player)]]
    ∧ (runCall self (.get_blacklist player (some "abc")) net).1.map Request.params
        = [[("player", PyValue.str player), ("token", PyValue.str "abc")]] := by
  have habc : "abc".isEmpty = false := rfl
  constructor <;>
    simp [runCall, AntisniperAPI.get_blacklist, AntisniperAPI.get,
      tryHandle_open _ _ _ h, habc]

/-- Witness for C7 at a concrete player and open client. -/
theorem get_blacklist_token_params_witness :
    (runCall exApi (.get_blacklist "Notch" Option.none) (.response okResp)).1.map
        Request.params
      = [[("player", PyValue.str "Notch")]]
    ∧ (runCall exApi (.get_blacklist "Notch" (some "abc")) (.response okResp)).1.map
        Request.params
      = [[("player", PyValue.str "Notch"), ("token", PyValue.str "abc")]] :=
  get_blacklist_token_params exApi "Notch" (.response okResp) rfl

/-- Claim C8: supplied-but-falsy optional arguments behave exactly like
absent ones — `get_blacklist(player, "")` and `chat_history(player, 0)`
omit the `token` and `limit` keys respectively, and the whole call is
indistinguishable from the unset form. -/
theorem falsy_optionals_as_absent (self : AntisniperAPI) (player : String)
    (net : TransportOutcome) (h : self.closed = false) :
    runCall self (.get_blacklist player (some "")) net
        = runCall self (.get_blacklist player Option.none) net
    ∧ runCall self (.player_chat_history player (some 0)) net
        = runCall self (.player_chat_history player Option.none) net
    ∧ (runCall self (.get_blacklist player (some "")) net).1.map Request.params
        = [[("player", PyValue.str player)]]
    ∧ (runCall self (.player_chat_history player (some 0)) net).1.map Request.params
        = [[("player", PyValue.str player)]] := by
  have hemp : "".isEmpty = true := rfl
  refine ⟨rfl, rfl, ?_, ?_⟩ <;>
    simp [runCall, AntisniperAPI.get_blacklist, Player.chat_history, AntisniperAPI.get,
      tryHandle_open _ _ _ h, hemp]

/-- Witness for C8 at a concrete player and open client. -/
theorem falsy_optionals_as_absent_witness :
    runCall exApi (.get_blacklist "Notch" (some "")) (.response okResp)
        = runCall exApi (.get_blacklist "Notch" Option.none) (.response okResp)
    ∧ (runCall exApi (.player_chat_history "Notch" (some 0)) (.response okResp)).1.map
        Request.params
      = [[("player", PyValue.str "Notch")]] :=
  ⟨(falsy_optionals_as_absent exApi "Notch" (.response okResp) rfl).1,
   (falsy_optionals_as_absent exApi "Notch" (.response okResp) rfl).2.2.2⟩

/-- Claim C9: only `aiohttp.ClientError` exceptions are translated into
the ConnectionFailure condition; any other exception raised during a
dispatched `get`/`post` propagates to the caller unwrapped — in
particular the `RuntimeError` the transport raises on a closed session. -/
theorem non_clienterror_unwrapped (self : AntisniperAPI) (c : ApiCall)
    (e : TransportExc) (net : TransportOutcome)
    (h : (runCall self c (.exc e)).1 ≠ []) (hnce : e.isClientError = false) :
    (runCall self c (.exc e)).2 = .error (.transport e)
    ∧ (overCap c = false →
        (runCall (AntisniperAPI.close self) c net).2
          = .error (.transport .sessionClosed)) := by
  constructor
  · rw [runCall_snd_of_trace self c (.exc e) h]
    simp [processOutcome, catchClientError, hnce]
  · intro ho
    exact runCall_closed_snd (AntisniperAPI.close self) c net rfl ho

/-- Witness for C9: a `json.JSONDecodeError`-typed exception propagates
unwrapped through `convert`, and the closed-session `RuntimeError`
propagates unwrapped after close. -/
theorem non_clienterror_unwrapped_witness :
    (runCall exApi (.convert "Notch" "mojang") (.exc .jsonDecodeError)).2
        = .error (.transport .jsonDecodeError)
    ∧ (runCall (AntisniperAPI.close exApi) (.convert "Notch" "mojang")
        (.response okResp)).2 = .error (.transport .sessionClosed) :=
  ⟨(non_clienterror_unwrapped exApi (.convert "Notch" "mojang") .jsonDecodeError
      (.response okResp) (by decide) rfl).1,
   (non_clienterror_unwrapped exApi (.convert "Notch" "mojang") .jsonDecodeError
      (.response okResp) (by decide) rfl).2 rfl⟩

/-- Counterexample for C10: a 200 response whose content type is JSON but
whose body does not parse raises `json.JSONDecodeError`, which is not an
`aiohttp.ClientError`; it propagates unwrapped, not as ConnectionFailure
and not as a success. -/
theorem json_decode_unwrapped_cex :
    (runCall exApi (.convert "Notch" "mojang") (.response badJsonResp)).2
        = .error (.transport .jsonDecodeError)
    ∧ isConnectionFailureResult
        ((runCall exApi (.convert "Notch" "mojang") (.response badJsonResp)).2) = false
    ∧ isOkResult
        ((runCall exApi (.convert "Notch" "mojang") (.response badJsonResp)).2) = false := by
  refine ⟨rfl, rfl, rfl⟩

/-- Claim C10 amended: for a 200 response whose content type is not JSON,
`r.json()` raises `ContentTypeError`, an `aiohttp.ClientError`, and the
call surfaces ConnectionFailure; for a 200 response with JSON content
type but an unparseable body, the `json.JSONDecodeError` propagates
unwrapped. -/
theorem status200_body_failure (self : AntisniperAPI) (c : ApiCall) (r : HttpResponse)
    (h : (runCall self c (.response r)).1 ≠ []) (h200 : r.status = 200) :
    (r.contentTypeJson = false →
        (runCall self c (.response r)).2 = .error (.connectionFailure .contentTypeError))
    ∧ (r.contentTypeJson = true → r.parsed = Option.none →
        (runCall self c (.response r)).2 = .error (.transport .jsonDecodeError)) := by
  have hd := runCall_snd_of_trace self c (.response r) h
  rw [hd]
  constructor
  · intro hct
    simp [processOutcome, handle_response, responseJson, h200, hct, catchClientError,
      TransportExc.isClientError]
  · intro hct hp
    simp [processOutcome, handle_response, responseJson, h200, hct, hp, catchClientError,
      TransportExc.isClientError]

/-- Witness for C10 amended: a concrete 200 response with a non-JSON
content type surfaces as ConnectionFailure caused by `ContentTypeError`. -/
theorem status200_body_failure_witness :
    (runCall exApi (.convert "Notch" "mojang")
        (.response { status := 200, contentTypeJson := false, parsed := Option.none })).2
      = .error (.connectionFailure .contentTypeError) :=
  (status200_body_failure exApi (.convert "Notch" "mojang")
      { status := 200, contentTypeJson := false, parsed := Option.none }
      (by decide) rfl).1 rfl
